import Mathlib

/-!
Shallow embedding of the BigQuery job-polling core of mcp.agent:
the reconciliation loop in src/mcp_agent/bq_poller.py, the retry
configuration in src/mcp_agent/utils.py, and the query-submission tool in
src/mcp_agent/gcp_tools/bigquery.py. Store and remote calls are modelled as
explicit outcome parameters; exceptions are modelled with an explicit
exception type and Python try/except control flow is translated branch by
branch.
-/

namespace McpAgent

/-- Python dict payloads with string keys and string values, as used for
`error_result` dictionaries in bq_poller.py. -/
abbrev ErrorDict := List (String × String)

/-- Exceptions that can cross the boundaries the poller code observes:
the google.api_core exception classes named in the repository, tenacity
RetryError wrapping, a NameError (for the undefined name in bigquery.py),
store failures, task cancellation (a BaseException in Python, hence not
caught by `except Exception`), and a catch-all. -/
inductive Exn where
  | notFound
  | serverError
  | serviceUnavailable
  | tooManyRequests
  | deadlineExceeded
  | badRequest
  | forbidden
  | retryError (last : Exn)
  | storeUnavailable
  | nameError (missing : String)
  | cancelled
  | other (s : String)
deriving DecidableEq, Repr

/-- RETRYABLE_GCP_EXCEPTIONS from src/mcp_agent/utils.py lines 25-30:
ServerError, ServiceUnavailable, TooManyRequests, DeadlineExceeded. -/
def isRetryableGcpException : Exn → Bool
  | Exn.serverError => true
  | Exn.serviceUnavailable => true
  | Exn.tooManyRequests => true
  | Exn.deadlineExceeded => true
  | _ => false

/-- stop_after_attempt(3) from src/mcp_agent/utils.py line 35. -/
def stop_after_attempt_budget : Nat := 3

/-- Modelled from the spec: the tenacity retry combinator configured in
src/mcp_agent/utils.py lines 34-46 (tenacity itself is an external
dependency, not repository code). `attempts i` is the outcome of the
(i+1)-th call of the wrapped function. Returns the final outcome together
with the number of attempts made: a success returns immediately; a
non-retryable exception propagates immediately; a retryable exception is
retried until the attempt budget is exhausted, after which tenacity raises
a RetryError wrapping the last exception. -/
def tenacityRun (attempts : Nat → Except Exn α) : Nat → Nat → Except Exn α × Nat
  | i, 0 => (Except.error (Exn.other "no attempt budget"), i)
  | i, fuel + 1 =>
    match attempts i with
    | Except.ok a => (Except.ok a, i + 1)
    | Except.error e =>
      if isRetryableGcpException e then
        if fuel = 0 then (Except.error (Exn.retryError e), i + 1)
        else tenacityRun attempts (i + 1) fuel
      else (Except.error e, i + 1)

/-- The retry_on_gcp_transient_error decorator of src/mcp_agent/utils.py
applied to a call whose per-attempt outcomes are `attempts`. -/
def retry_on_gcp_transient_call (attempts : Nat → Except Exn α) : Except Exn α × Nat :=
  tenacityRun attempts 0 stop_after_attempt_budget

/-- Modelled from the spec: the upper bound of the wait computed by
tenacity wait_exponential for a given attempt number, with the multiplier
and cap configured in src/mcp_agent/utils.py line 36
(wait_random_exponential(multiplier=1, max=2)). -/
def wait_exponential_high (multiplier mx : ℚ) (attemptNumber : Nat) : ℚ :=
  max 0 (min (multiplier * 2 ^ attemptNumber) mx)

/-- Modelled from the spec: tenacity wait_random_exponential draws the
actual wait uniformly from [0, high]; `u` is the uniform sample in [0, 1]. -/
def wait_random_exponential_draw (multiplier mx : ℚ) (attemptNumber : Nat) (u : ℚ) : ℚ :=
  u * wait_exponential_high multiplier mx attemptNumber

/-- The fields of a Firestore job record that run_bq_job_poller reads
(src/mcp_agent/bq_poller.py lines 57-109). -/
structure BqJobInfo where
  job_id : String
  location : Option String
  status : String
deriving DecidableEq, Repr

/-- The fields of a bigquery.QueryJob that the poller reads: `state` and
`error_result` (src/mcp_agent/bq_poller.py lines 75 and 92). -/
structure BqJob where
  state : String
  error_result : Option ErrorDict
deriving DecidableEq, Repr

/-- One update_job_status call issued by the poller: the job id, the new
status, and the error_result argument (None when the call omits it, per
the store interface of spec section 4.1; the store implementation
job_store.py is not part of src/). -/
structure JobWrite where
  job_id : String
  status : String
  error_result : Option ErrorDict
deriving DecidableEq, Repr

/-- The terminal status list ["DONE", "ERROR"] of
src/mcp_agent/bq_poller.py line 78. -/
def terminal_states : List String := ["DONE", "ERROR"]

/-- Membership of a status in the terminal list, as the poller tests it. -/
def isTerminalStatus (s : String) : Bool := terminal_states.contains s

/-- The error_result written by the `if not bq_job` safeguard branch,
src/mcp_agent/bq_poller.py line 71. -/
def polling_not_found_payload : ErrorDict :=
  [("error_type", "PollingError"), ("message", "Job not found via BQ API during polling.")]

/-- The error_result written by the `except google_exceptions.NotFound`
handler, src/mcp_agent/bq_poller.py line 122. -/
def api_not_found_payload : ErrorDict :=
  [("error_type", "NotFound"), ("message", "Job not found in BigQuery during polling cycle.")]

/-- Outcome of processing one record (or one batch): the update calls
attempted, the updates that succeeded, and the exception (if any) that
escaped this level of handling. -/
structure RecordOutcome where
  calls : List JobWrite
  writes : List JobWrite
  exn : Option Exn
deriving Repr

/-- Behaviour of firestore_job_store.update_job_status for a given call:
success, or the exception it raises. -/
abbrev UpdateBehavior := JobWrite → Except Exn Unit

/-- Behaviour of the (retry-wrapped) BigQuery get_job call for a given
record: the job data, None, or the exception it raises. -/
abbrev GetJobBehavior := BqJobInfo → Except Exn (Option BqJob)

/-- One update_job_status call: on success it is both attempted and
written; on failure it is attempted only and the exception propagates. -/
def attemptWrite (upd : UpdateBehavior) (w : JobWrite) : RecordOutcome :=
  match upd w with
  | Except.ok _ => ⟨[w], [w], none⟩
  | Except.error e => ⟨[w], [], some e⟩

/-- The body of the per-record `try` block of run_bq_job_poller
(src/mcp_agent/bq_poller.py lines 58-115): fetch the job from the BQ API;
if the API returned nothing, write ERROR with the PollingError payload;
if the state is DONE, write DONE carrying the remote error_result; else if
the state differs from the stored status, write the new status with no
error_result; otherwise (state unchanged and non-terminal) issue no write. -/
def pollJobBody (upd : UpdateBehavior) (res : Except Exn (Option BqJob))
    (job : BqJobInfo) : RecordOutcome :=
  match res with
  | Except.error e => ⟨[], [], some e⟩
  | Except.ok none =>
    attemptWrite upd ⟨job.job_id, "ERROR", some polling_not_found_payload⟩
  | Except.ok (some bq) =>
    if bq.state = "DONE" then
      attemptWrite upd ⟨job.job_id, "DONE", bq.error_result⟩
    else if bq.state ≠ job.status then
      attemptWrite upd ⟨job.job_id, bq.state, none⟩
    else ⟨[], [], none⟩

/-- One record of the per-record loop with its exception handlers
(src/mcp_agent/bq_poller.py lines 57-127): a NotFound raised in the body
is handled by writing ERROR with the NotFound payload — an exception
raised by that handler write itself escapes, since Python does not route
exceptions raised inside an except block to a sibling handler; any other
Exception raised in the body is caught and logged (no write); cancellation
is a BaseException and escapes. -/
def pollJobRecord (upd : UpdateBehavior) (res : Except Exn (Option BqJob))
    (job : BqJobInfo) : RecordOutcome :=
  let b := pollJobBody upd res job
  match b.exn with
  | none => b
  | some Exn.notFound =>
    let h := attemptWrite upd ⟨job.job_id, "ERROR", some api_not_found_payload⟩
    ⟨b.calls ++ h.calls, b.writes ++ h.writes, h.exn⟩
  | some Exn.cancelled => b
  | some _ => ⟨b.calls, b.writes, none⟩

/-- The `for job_info in pending_jobs` loop: records are processed in
order; an exception escaping one record aborts the rest of the batch and
propagates to the loop level. -/
def pollJobList (upd : UpdateBehavior) (getRes : GetJobBehavior) :
    List BqJobInfo → RecordOutcome
  | [] => ⟨[], [], none⟩
  | j :: rest =>
    let r := pollJobRecord upd (getRes j) j
    match r.exn with
    | none =>
      let t := pollJobList upd getRes rest
      ⟨r.calls ++ t.calls, r.writes ++ t.writes, t.exn⟩
    | some e => ⟨r.calls, r.writes, some e⟩

/-- The loop-level `except Exception` of src/mcp_agent/bq_poller.py lines
129-131: every Exception is caught and logged; cancellation alone escapes. -/
def loopLevelCatch : Option Exn → Option Exn
  | some Exn.cancelled => some Exn.cancelled
  | _ => none

/-- One full cycle of run_bq_job_poller (src/mcp_agent/bq_poller.py lines
45-131): fetch the batch via query_pending_jobs (outcome `batch`), process
each record, and catch everything but cancellation at the loop level. -/
def run_bq_job_poller_cycle (upd : UpdateBehavior) (getRes : GetJobBehavior)
    (batch : Except Exn (List BqJobInfo)) : RecordOutcome :=
  match batch with
  | Except.error e => ⟨[], [], loopLevelCatch (some e)⟩
  | Except.ok jobs =>
    let p := pollJobList upd getRes jobs
    ⟨p.calls, p.writes, loopLevelCatch p.exn⟩

/-- Observable events of the polling loop: a batch fetch attempt, a
successful durable write, and the inter-cycle sleep. -/
inductive PollerEvent where
  | fetch
  | write (w : JobWrite)
  | sleep (seconds : Nat)
deriving DecidableEq, Repr

/-- Event trace of one iteration of the while-loop: the batch fetch
attempt, the successful writes, then — unless an exception escaped the
loop-level handler (cancellation only) — the `await asyncio.sleep` at
src/mcp_agent/bq_poller.py line 134, which sits after the try/except and
therefore runs no matter how the cycle went. -/
def cycleTrace (interval : Nat) (c : RecordOutcome) : List PollerEvent :=
  PollerEvent.fetch :: (c.writes.map PollerEvent.write ++
    (match c.exn with
     | none => [PollerEvent.sleep interval]
     | some _ => []))

/-- The per-iteration environment: the batch-fetch outcome and the store
and remote behaviours for that iteration. -/
structure CycleEnv where
  batch : Except Exn (List BqJobInfo)
  getRes : GetJobBehavior
  upd : UpdateBehavior

/-- Run one iteration of the poller in the given environment. -/
def runCycleEnv (env : CycleEnv) : RecordOutcome :=
  run_bq_job_poller_cycle env.upd env.getRes env.batch

/-- Event trace of the while-loop of run_bq_job_poller across successive
iterations; the loop stops only when an exception (cancellation) escapes
an iteration. -/
def run_bq_job_poller_trace (interval : Nat) : List CycleEnv → List PollerEvent
  | [] => []
  | env :: rest =>
    let c := runCycleEnv env
    cycleTrace interval c ++
      (match c.exn with
       | none => run_bq_job_poller_trace interval rest
       | some _ => [])

/-- Fetch and sleep events, the alternation of which is the cadence of the
loop. -/
def isFetchOrSleep : PollerEvent → Bool
  | PollerEvent.fetch => true
  | PollerEvent.sleep _ => true
  | PollerEvent.write _ => false

/-- Python values as they appear in a tool arguments dict. -/
inductive PyVal where
  | str (s : String)
  | num (n : Int)
  | noneVal
  | boolVal (b : Bool)
deriving DecidableEq, Repr

/-- Python truthiness of such a value (`not query_str` in
src/mcp_agent/gcp_tools/bigquery.py line 115). -/
def pyTruthy : PyVal → Bool
  | PyVal.str s => !s.isEmpty
  | PyVal.num n => n != 0
  | PyVal.noneVal => false
  | PyVal.boolVal b => b

/-- isinstance(x, str). -/
def isPyStr : PyVal → Bool
  | PyVal.str _ => true
  | _ => false

/-- The response payload built by format_response in
src/mcp_agent/utils.py lines 108-117: a status, a message, and optional
data (values stringified). -/
structure McpResponse where
  status : String
  message : String
  data : Option (List (String × String))
deriving DecidableEq, Repr

/-- format_response of src/mcp_agent/utils.py line 108. -/
def format_response (status message : String)
    (data : Option (List (String × String))) : McpResponse :=
  ⟨status, message, data⟩

/-- format_success of src/mcp_agent/utils.py line 139. -/
def format_success (message : String)
    (data : Option (List (String × String))) : McpResponse :=
  format_response "success" message data

/-- format_error of src/mcp_agent/utils.py line 143. -/
def format_error (message : String)
    (data : Option (List (String × String))) : McpResponse :=
  format_response "error" message data

/-- format_info of src/mcp_agent/utils.py line 148. -/
def format_info (message : String)
    (data : Option (List (String × String))) : McpResponse :=
  format_response "info" message data

/-- The exception class name recorded by handle_gcp_error. -/
def exnTypeName : Exn → String
  | Exn.notFound => "NotFound"
  | Exn.serverError => "ServerError"
  | Exn.serviceUnavailable => "ServiceUnavailable"
  | Exn.tooManyRequests => "TooManyRequests"
  | Exn.deadlineExceeded => "DeadlineExceeded"
  | Exn.badRequest => "BadRequest"
  | Exn.forbidden => "Forbidden"
  | Exn.retryError _ => "RetryError"
  | Exn.storeUnavailable => "StoreUnavailable"
  | Exn.nameError _ => "NameError"
  | Exn.cancelled => "CancelledError"
  | Exn.other s => s

/-- The message selection of handle_gcp_error, src/mcp_agent/utils.py
lines 152-163. -/
def gcpErrorMessage (e : Exn) (operation_description : String) : String :=
  match e with
  | Exn.notFound => "Resource not found " ++ operation_description
  | Exn.forbidden => "Permission denied " ++ operation_description ++ " Check credentials"
  | Exn.badRequest => "Bad request " ++ operation_description ++ " check args"
  | _ => "Unexpected error during " ++ operation_description ++ " " ++ exnTypeName e

/-- handle_gcp_error of src/mcp_agent/utils.py lines 152-164: maps a GCP
exception to a format_error response carrying the exception details. -/
def handle_gcp_error (e : Exn) (operation_description : String) : McpResponse :=
  format_error (gcpErrorMessage e operation_description)
    (some [("exception_type", exnTypeName e)])

/-- The names imported or defined at module level in
src/mcp_agent/gcp_tools/bigquery.py (lines 1-17 and the defs below them).
The import at line 10 brings in FirestoreBqJobStore only; no line defines
or imports BqJobInfo. -/
def bigquery_module_globals : List String :=
  ["asyncio", "logging", "bigquery", "google_exceptions", "page_iterator",
   "mcp_types", "FirestoreBqJobStore", "format_success", "format_error",
   "format_info", "handle_gcp_error", "McpToolReturnType",
   "retry_on_gcp_transient_error", "logger", "_bq_client", "get_bq_client",
   "_get_dataset_sync", "_list_datasets_sync", "_list_tables_sync",
   "_get_table_sync", "_submit_job_sync", "_get_job_sync", "_list_rows_sync",
   "bq_list_datasets", "bq_list_tables", "bq_get_table_schema",
   "bq_submit_query", "bq_get_job_status", "bq_get_query_results",
   "_serialize_row"]

/-- The fields of the QueryJob handle read by bq_submit_query after a
successful submission (src/mcp_agent/gcp_tools/bigquery.py line 132). -/
structure QueryJobHandle where
  job_id : String
  location : String
  state : String
deriving DecidableEq, Repr

/-- bq_submit_query of src/mcp_agent/gcp_tools/bigquery.py lines 112-141.
`submitRes` is the outcome of the retry-wrapped client.query call (it also
stands for a failure of get_bq_client, which the same try block covers)
and `addJobRes` the outcome of bq_job_store.add_job. After a successful
submission the source evaluates `BqJobInfo(...)` (line 135); the branch on
bigquery_module_globals decides whether that name resolves — when it does
not, a NameError is raised before add_job runs, and the
`except Exception` at line 141 turns it into a handle_gcp_error response.
BadRequest and Forbidden from the submission have their own handlers
(lines 139-140); cancellation escapes every handler. -/
def bq_submit_query (arguments : List (String × PyVal)) (conn_id : String)
    (submitRes : Except Exn QueryJobHandle) (addJobRes : Except Exn Unit) :
    Except Exn McpResponse :=
  let query_arg := (List.lookup "query" arguments).getD PyVal.noneVal
  if !(pyTruthy query_arg && isPyStr query_arg) then
    Except.ok (format_error "Missing invalid query string" none)
  else
    match submitRes with
    | Except.ok job =>
      if bigquery_module_globals.contains "BqJobInfo" then
        match addJobRes with
        | Except.ok _ =>
          Except.ok (format_success "Query submitted Use bq get job status poll"
            (some [("job_id", job.job_id), ("location", job.location),
                   ("state", job.state)]))
        | Except.error Exn.cancelled => Except.error Exn.cancelled
        | Except.error e => Except.ok (handle_gcp_error e "submitting BQ query")
      else
        Except.ok (handle_gcp_error (Exn.nameError "BqJobInfo") "submitting BQ query")
    | Except.error Exn.cancelled => Except.error Exn.cancelled
    | Except.error Exn.badRequest =>
      Except.ok (handle_gcp_error Exn.badRequest "submitting query BadRequest")
    | Except.error Exn.forbidden =>
      Except.ok (handle_gcp_error Exn.forbidden "submitting query Forbidden")
    | Except.error e => Except.ok (handle_gcp_error e "submitting BQ query")

/-! Helper lemmas shared by the claim theorems. -/

theorem isTerminalStatus_false_iff (s : String) :
    isTerminalStatus s = false ↔ s ≠ "DONE" ∧ s ≠ "ERROR" := by
  simp [isTerminalStatus, terminal_states]

theorem attemptWrite_calls (upd : UpdateBehavior) (w : JobWrite) :
    (attemptWrite upd w).calls = [w] := by
  unfold attemptWrite
  split <;> rfl

theorem pollJobBody_calls_job_id (upd : UpdateBehavior)
    (res : Except Exn (Option BqJob)) (job : BqJobInfo) :
    ∀ w ∈ (pollJobBody upd res job).calls, w.job_id = job.job_id := by
  intro w hw
  rcases res with e | o
  · simp [pollJobBody] at hw
  · rcases o with _ | bq
    · simp only [pollJobBody] at hw
      rw [attemptWrite_calls] at hw
      simp at hw
      rw [hw]
    · simp only [pollJobBody] at hw
      split at hw
      · rw [attemptWrite_calls] at hw
        simp at hw
        rw [hw]
      · split at hw
        · rw [attemptWrite_calls] at hw
          simp at hw
          rw [hw]
        · simp at hw

theorem pollJobRecord_calls_job_id (upd : UpdateBehavior)
    (res : Except Exn (Option BqJob)) (job : BqJobInfo) :
    ∀ w ∈ (pollJobRecord upd res job).calls, w.job_id = job.job_id := by
  intro w hw
  simp only [pollJobRecord] at hw
  split at hw
  · exact pollJobBody_calls_job_id upd res job w hw
  · rw [List.mem_append, attemptWrite_calls] at hw
    rcases hw with hw | hw
    · exact pollJobBody_calls_job_id upd res job w hw
    · simp at hw
      rw [hw]
  · exact pollJobBody_calls_job_id upd res job w hw
  · exact pollJobBody_calls_job_id upd res job w hw

theorem pollJobList_calls_from (upd : UpdateBehavior) (getRes : GetJobBehavior)
    (jobs : List BqJobInfo) :
    ∀ w ∈ (pollJobList upd getRes jobs).calls, ∃ j ∈ jobs, w.job_id = j.job_id := by
  induction jobs with
  | nil => intro w hw; simp [pollJobList] at hw
  | cons j rest ih =>
    intro w hw
    simp only [pollJobList] at hw
    split at hw
    · rw [List.mem_append] at hw
      rcases hw with hw | hw
      · exact ⟨j, List.mem_cons_self j rest, pollJobRecord_calls_job_id upd (getRes j) j w hw⟩
      · obtain ⟨j2, hj2, hid⟩ := ih w hw
        exact ⟨j2, List.mem_cons_of_mem j hj2, hid⟩
    · exact ⟨j, List.mem_cons_self j rest, pollJobRecord_calls_job_id upd (getRes j) j w hw⟩

theorem cycle_ok_calls (upd : UpdateBehavior) (getRes : GetJobBehavior)
    (jobs : List BqJobInfo) :
    (run_bq_job_poller_cycle upd getRes (Except.ok jobs)).calls =
      (pollJobList upd getRes jobs).calls := by
  rfl

theorem cycle_ok_writes (upd : UpdateBehavior) (getRes : GetJobBehavior)
    (jobs : List BqJobInfo) :
    (run_bq_job_poller_cycle upd getRes (Except.ok jobs)).writes =
      (pollJobList upd getRes jobs).writes := by
  rfl

theorem loopLevelCatch_none_or_cancelled (o : Option Exn) :
    loopLevelCatch o = none ∨ loopLevelCatch o = some Exn.cancelled := by
  cases o with
  | none => left; rfl
  | some e => cases e <;> simp [loopLevelCatch]

theorem pollJobRecord_unchanged (upd : UpdateBehavior)
    (res : Except Exn (Option BqJob)) (job : BqJobInfo) (bq : BqJob)
    (hres : res = Except.ok (some bq)) (hstate : bq.state = job.status)
    (hterm : isTerminalStatus job.status = false) :
    pollJobRecord upd res job = ⟨[], [], none⟩ := by
  obtain ⟨hD, _⟩ := (isTerminalStatus_false_iff job.status).mp hterm
  simp [pollJobRecord, pollJobBody, hres, hstate, hD]

theorem tenacityRun_all_retryable {α : Type} (attempts : Nat → Except Exn α)
    (es : Nat → Exn)
    (hall : ∀ i, attempts i = Except.error (es i))
    (hret : ∀ i, isRetryableGcpException (es i) = true) :
    ∀ fuel i, tenacityRun attempts i (fuel + 1) =
      (Except.error (Exn.retryError (es (i + fuel))), i + fuel + 1) := by
  intro fuel
  induction fuel with
  | zero =>
    intro i
    simp [tenacityRun, hall i, hret i]
  | succ f ih =>
    intro i
    rw [tenacityRun, hall i]
    simp only [hret i, if_true]
    rw [if_neg (Nat.succ_ne_zero f), ih (i + 1)]
    have h1 : i + 1 + f = i + (f + 1) := by omega
    rw [h1]

theorem tenacityRun_nonretryable_first {α : Type} (attempts : Nat → Except Exn α)
    (e : Exn) (fuel i : Nat)
    (h0 : attempts i = Except.error e)
    (hperm : isRetryableGcpException e = false) :
    tenacityRun attempts i (fuel + 1) = (Except.error e, i + 1) := by
  rw [tenacityRun, h0]
  simp [hperm]

/-! Claim theorems. -/

/-- C1 counterexample: with the remote lookup for job-1 raising NotFound and
the store write succeeding, the poll step does write status ERROR for
job-1, but the error payload it writes carries error_type "NotFound" —
none of its fields holds the value "PollingError" that the claim requires. -/
theorem c1_counterexample_kind_is_notfound :
    (pollJobRecord (fun _ => Except.ok ()) (Except.error Exn.notFound)
        ⟨"job-1", none, "PENDING"⟩).writes =
      [⟨"job-1", "ERROR", some api_not_found_payload⟩] ∧
    List.lookup "error_type" api_not_found_payload = some "NotFound" ∧
    ∀ p ∈ api_not_found_payload, p.2 ≠ "PollingError" := by
  refine ⟨rfl, rfl, ?_⟩
  decide

/-- C1 (amended): for every job record whose remote status lookup fails
with NotFoundError and whose store write succeeds, the poller writes
status=ERROR for that job_id within that same cycle, with an error_info
payload whose error_type field equals "NotFound" (not "PollingError"). -/
theorem c1_amended_not_found_writes_error (upd : UpdateBehavior)
    (getRes : GetJobBehavior) (job : BqJobInfo)
    (hget : getRes job = Except.error Exn.notFound)
    (hupd : upd ⟨job.job_id, "ERROR", some api_not_found_payload⟩ = Except.ok ()) :
    pollJobRecord upd (getRes job) job =
      ⟨[⟨job.job_id, "ERROR", some api_not_found_payload⟩],
       [⟨job.job_id, "ERROR", some api_not_found_payload⟩], none⟩ ∧
    (run_bq_job_poller_cycle upd getRes (Except.ok [job])).writes =
      [⟨job.job_id, "ERROR", some api_not_found_payload⟩] ∧
    List.lookup "error_type" api_not_found_payload = some "NotFound" := by
  have hrec : pollJobRecord upd (getRes job) job =
      ⟨[⟨job.job_id, "ERROR", some api_not_found_payload⟩],
       [⟨job.job_id, "ERROR", some api_not_found_payload⟩], none⟩ := by
    simp [pollJobRecord, pollJobBody, attemptWrite, hget, hupd]
  refine ⟨hrec, ?_, rfl⟩
  rw [cycle_ok_writes]
  simp [pollJobList, hrec]

/-- Witness for C1 (amended) at the concrete job-1 record of the spec
scenario, with an always-succeeding store. -/
theorem c1_amended_witness :
    pollJobRecord (fun _ => Except.ok ())
        ((fun j : BqJobInfo => if j.job_id == "job-1" then Except.error Exn.notFound
                   else Except.ok none) ⟨"job-1", none, "PENDING"⟩)
        ⟨"job-1", none, "PENDING"⟩ =
      ⟨[⟨"job-1", "ERROR", some api_not_found_payload⟩],
       [⟨"job-1", "ERROR", some api_not_found_payload⟩], none⟩ ∧
    (run_bq_job_poller_cycle (fun _ => Except.ok ())
        (fun j : BqJobInfo => if j.job_id == "job-1" then Except.error Exn.notFound
                  else Except.ok none)
        (Except.ok [⟨"job-1", none, "PENDING"⟩])).writes =
      [⟨"job-1", "ERROR", some api_not_found_payload⟩] ∧
    List.lookup "error_type" api_not_found_payload = some "NotFound" :=
  c1_amended_not_found_writes_error (fun _ => Except.ok ())
    (fun j : BqJobInfo => if j.job_id == "job-1" then Except.error Exn.notFound
              else Except.ok none)
    ⟨"job-1", none, "PENDING"⟩ rfl rfl

/-- C2 counterexample: a PENDING record whose remote job reports state DONE
with an error payload is written back with status DONE (carrying the
payload), not with status ERROR as the claim states: no write of that poll
step carries status "ERROR". -/
theorem c2_counterexample_done_with_error_stays_done :
    (pollJobRecord (fun _ => Except.ok ())
        (Except.ok (some ⟨"DONE", some [("code", "X")]⟩))
        ⟨"j3", none, "PENDING"⟩).writes =
      [⟨"j3", "DONE", some [("code", "X")]⟩] ∧
    ∀ w ∈ (pollJobRecord (fun _ => Except.ok ())
        (Except.ok (some ⟨"DONE", some [("code", "X")]⟩))
        ⟨"j3", none, "PENDING"⟩).writes, w.status ≠ "ERROR" := by
  refine ⟨rfl, ?_⟩
  decide

/-- C2 (amended): for every non-terminal job record for which the remote
system reports state DONE with an error payload present (and whose store
write succeeds), the poll cycle writes the stored status as DONE with
error_info set to that payload; the failure is carried in error_info while
the status field stays DONE. -/
theorem c2_amended_done_with_error_written_as_done (upd : UpdateBehavior)
    (getRes : GetJobBehavior) (job : BqJobInfo) (bq : BqJob) (p : ErrorDict)
    (hterm : isTerminalStatus job.status = false)
    (hget : getRes job = Except.ok (some bq))
    (hstate : bq.state = "DONE")
    (herr : bq.error_result = some p)
    (hupd : upd ⟨job.job_id, "DONE", some p⟩ = Except.ok ()) :
    pollJobRecord upd (getRes job) job =
      ⟨[⟨job.job_id, "DONE", some p⟩], [⟨job.job_id, "DONE", some p⟩], none⟩ := by
  simp [pollJobRecord, pollJobBody, attemptWrite, hget, hstate, herr, hupd]

/-- Witness for C2 (amended) at the spec scenario j3: stored PENDING,
remote DONE with payload code X. -/
theorem c2_amended_witness :
    isTerminalStatus "PENDING" = false ∧
    pollJobRecord (fun _ => Except.ok ())
        ((fun _ => Except.ok (some ⟨"DONE", some [("code", "X")]⟩) : GetJobBehavior)
          ⟨"j3", none, "PENDING"⟩)
        ⟨"j3", none, "PENDING"⟩ =
      ⟨[⟨"j3", "DONE", some [("code", "X")]⟩],
       [⟨"j3", "DONE", some [("code", "X")]⟩], none⟩ :=
  ⟨by decide,
   c2_amended_done_with_error_written_as_done (fun _ => Except.ok ())
     (fun _ => Except.ok (some ⟨"DONE", some [("code", "X")]⟩))
     ⟨"j3", none, "PENDING"⟩ ⟨"DONE", some [("code", "X")]⟩ [("code", "X")]
     (by decide) rfl rfl rfl rfl⟩

/-- C4: when the remote status call succeeds and the returned state equals
the stored status and that state is non-terminal, the poller issues no
update_status call for that record (and hence no write), and no call of
the whole cycle targets that job_id when every batch record carrying it is
in the same unchanged situation. -/
theorem c4_unchanged_nonterminal_no_write (upd : UpdateBehavior)
    (getRes : GetJobBehavior) (job : BqJobInfo) (bq : BqJob)
    (hget : getRes job = Except.ok (some bq))
    (hstate : bq.state = job.status)
    (hterm : isTerminalStatus job.status = false) :
    pollJobRecord upd (getRes job) job = ⟨[], [], none⟩ ∧
    ∀ jobs : List BqJobInfo,
      (∀ j ∈ jobs, j.job_id = job.job_id →
        ∃ bqj, getRes j = Except.ok (some bqj) ∧ bqj.state = j.status ∧
          isTerminalStatus j.status = false) →
      (run_bq_job_poller_cycle upd getRes (Except.ok jobs)).calls.filter
        (fun w => w.job_id == job.job_id) = [] := by
  refine ⟨pollJobRecord_unchanged upd (getRes job) job bq hget hstate hterm, ?_⟩
  intro jobs
  induction jobs with
  | nil => intro _; rw [cycle_ok_calls]; simp [pollJobList]
  | cons j rest ih =>
    intro hjobs
    rw [cycle_ok_calls] at *
    have hrest : (pollJobList upd getRes rest).calls.filter
        (fun w => w.job_id == job.job_id) = [] := by
      apply ih
      intro j2 hj2 hid
      exact hjobs j2 (List.mem_cons_of_mem j hj2) hid
    by_cases hid : j.job_id = job.job_id
    · obtain ⟨bqj, hg, hs, ht⟩ := hjobs j (List.mem_cons_self j rest) hid
      have hru := pollJobRecord_unchanged upd (getRes j) j bqj hg hs ht
      simp only [pollJobList, hru]
      simpa using hrest
    · have hcalls := pollJobRecord_calls_job_id upd (getRes j) j
      have hfilter : (pollJobRecord upd (getRes j) j).calls.filter
          (fun w => w.job_id == job.job_id) = [] := by
        rw [List.filter_eq_nil]
        intro w hw
        simp only [beq_iff_eq]
        rw [hcalls w hw]
        exact hid
      simp only [pollJobList]
      split
      · rw [List.filter_append, hfilter, hrest]
        rfl
      · exact hfilter

/-- Witness for C4 at the concrete record j5 whose remote state equals its
stored RUNNING status. -/
theorem c4_witness :
    pollJobRecord (fun _ => Except.ok ())
        ((fun _ => Except.ok (some ⟨"RUNNING", none⟩) : GetJobBehavior)
          ⟨"j5", none, "RUNNING"⟩)
        ⟨"j5", none, "RUNNING"⟩ = ⟨[], [], none⟩ ∧
    ∀ jobs : List BqJobInfo,
      (∀ j ∈ jobs, j.job_id = "j5" →
        ∃ bqj, (fun _ => Except.ok (some ⟨"RUNNING", none⟩) : GetJobBehavior) j =
            Except.ok (some bqj) ∧ bqj.state = j.status ∧
          isTerminalStatus j.status = false) →
      (run_bq_job_poller_cycle (fun _ => Except.ok ())
          (fun _ => Except.ok (some ⟨"RUNNING", none⟩))
          (Except.ok jobs)).calls.filter (fun w => w.job_id == "j5") = [] :=
  c4_unchanged_nonterminal_no_write (fun _ => Except.ok ())
    (fun _ => Except.ok (some ⟨"RUNNING", none⟩))
    ⟨"j5", none, "RUNNING"⟩ ⟨"RUNNING", none⟩ rfl rfl (by decide)

/-- C5: when the remote status call succeeds with state DONE (and the store
write succeeds), the poller writes status DONE for that job_id with
error_result equal to the remote error payload — the payload itself when
present, None otherwise. -/
theorem c5_done_written_with_remote_error_payload (upd : UpdateBehavior)
    (getRes : GetJobBehavior) (job : BqJobInfo) (bq : BqJob)
    (hget : getRes job = Except.ok (some bq))
    (hstate : bq.state = "DONE")
    (hupd : upd ⟨job.job_id, "DONE", bq.error_result⟩ = Except.ok ()) :
    pollJobRecord upd (getRes job) job =
      ⟨[⟨job.job_id, "DONE", bq.error_result⟩],
       [⟨job.job_id, "DONE", bq.error_result⟩], none⟩ := by
  simp [pollJobRecord, pollJobBody, attemptWrite, hget, hstate, hupd]

/-- Witness for C5 at the spec scenario j3 (remote DONE with payload
code X, stored PENDING). -/
theorem c5_witness :
    pollJobRecord (fun _ => Except.ok ())
        ((fun _ => Except.ok (some ⟨"DONE", some [("code", "X")]⟩) : GetJobBehavior)
          ⟨"j3", none, "PENDING"⟩)
        ⟨"j3", none, "PENDING"⟩ =
      ⟨[⟨"j3", "DONE", some [("code", "X")]⟩],
       [⟨"j3", "DONE", some [("code", "X")]⟩], none⟩ :=
  c5_done_written_with_remote_error_payload (fun _ => Except.ok ())
    (fun _ => Except.ok (some ⟨"DONE", some [("code", "X")]⟩))
    ⟨"j3", none, "PENDING"⟩ ⟨"DONE", some [("code", "X")]⟩ rfl rfl rfl

/-- C8: when the remote status call succeeds with a state that differs from
the stored status and is non-terminal (and the store write succeeds), the
poller writes the new status for that job_id with error_result None — the
update_job_status call at bq_poller.py line 109 omits error_result, whose
default is None per the store interface of spec section 4.1. -/
theorem c8_changed_nonterminal_written_with_none (upd : UpdateBehavior)
    (getRes : GetJobBehavior) (job : BqJobInfo) (bq : BqJob)
    (hget : getRes job = Except.ok (some bq))
    (hterm : isTerminalStatus bq.state = false)
    (hdiff : bq.state ≠ job.status)
    (hupd : upd ⟨job.job_id, bq.state, none⟩ = Except.ok ()) :
    pollJobRecord upd (getRes job) job =
      ⟨[⟨job.job_id, bq.state, none⟩], [⟨job.job_id, bq.state, none⟩], none⟩ := by
  obtain ⟨hD, _⟩ := (isTerminalStatus_false_iff bq.state).mp hterm
  simp [pollJobRecord, pollJobBody, attemptWrite, hget, hD, hdiff, hupd]

/-- Witness for C8 at the spec scenario j1: stored PENDING, remote
RUNNING. -/
theorem c8_witness :
    pollJobRecord (fun _ => Except.ok ())
        ((fun _ => Except.ok (some ⟨"RUNNING", none⟩) : GetJobBehavior)
          ⟨"j1", none, "PENDING"⟩)
        ⟨"j1", none, "PENDING"⟩ =
      ⟨[⟨"j1", "RUNNING", none⟩], [⟨"j1", "RUNNING", none⟩], none⟩ :=
  c8_changed_nonterminal_written_with_none (fun _ => Except.ok ())
    (fun _ => Except.ok (some ⟨"RUNNING", none⟩))
    ⟨"j1", none, "PENDING"⟩ ⟨"RUNNING", none⟩ rfl (by decide) (by decide) rfl

/-- C3: when the batch returned by query_pending_jobs contains only
non-terminal records, every update_status call a poll cycle issues targets
the job_id of some fetched record whose stored status was non-terminal
when the cycle fetched it — terminal records, excluded from the batch, are
never written. -/
theorem c3_updates_target_nonterminal_records (upd : UpdateBehavior)
    (getRes : GetJobBehavior) (jobs : List BqJobInfo)
    (h : ∀ j ∈ jobs, isTerminalStatus j.status = false) :
    ∀ w ∈ (run_bq_job_poller_cycle upd getRes (Except.ok jobs)).calls,
      ∃ j ∈ jobs, w.job_id = j.job_id ∧ isTerminalStatus j.status = false := by
  intro w hw
  rw [cycle_ok_calls] at hw
  obtain ⟨j, hj, hid⟩ := pollJobList_calls_from upd getRes jobs w hw
  exact ⟨j, hj, hid, h j hj⟩

/-- Witness for C3: the one call the concrete cycle issues (the DONE write
for j1) targets a fetched record that was non-terminal when fetched. -/
theorem c3_witness :
    ∃ j ∈ [(⟨"j1", none, "PENDING"⟩ : BqJobInfo), ⟨"j2", none, "RUNNING"⟩],
      (⟨"j1", "DONE", none⟩ : JobWrite).job_id = j.job_id ∧
        isTerminalStatus j.status = false :=
  c3_updates_target_nonterminal_records (fun _ => Except.ok ())
    (fun _ => Except.ok (some ⟨"DONE", none⟩))
    [⟨"j1", none, "PENDING"⟩, ⟨"j2", none, "RUNNING"⟩]
    (by intro j hj; fin_cases hj <;> rfl)
    ⟨"j1", "DONE", none⟩ (by decide)

/-- C6: a job whose remote lookup raises a retryable transient error
(server error, service unavailable, rate-limited, deadline exceeded) on
every attempt is retried up to the fixed budget of 3 attempts, after which
tenacity raises a RetryError; the per-record handler then issues no
update_status call and the record is left unchanged for the next cycle.
Non-retryable (permanent) errors propagate after exactly one attempt. The
waits between attempts are jittered draws bounded by the capped
exponential min(2, 2^attempt). -/
theorem c6_transient_retry_budget_and_skip
    (attempts : Nat → Except Exn (Option BqJob)) (es : Nat → Exn)
    (upd : UpdateBehavior) (job : BqJobInfo)
    (hall : ∀ i, attempts i = Except.error (es i))
    (hret : ∀ i, isRetryableGcpException (es i) = true) :
    retry_on_gcp_transient_call attempts =
      (Except.error (Exn.retryError (es 2)), 3) ∧
    pollJobRecord upd (retry_on_gcp_transient_call attempts).1 job =
      ⟨[], [], none⟩ ∧
    (∀ (e : Exn), isRetryableGcpException e = false →
      ∀ attempts2 : Nat → Except Exn (Option BqJob),
        attempts2 0 = Except.error e →
        retry_on_gcp_transient_call attempts2 = (Except.error e, 1)) ∧
    (∀ (k : Nat) (u : ℚ), 0 ≤ u → u ≤ 1 →
      0 ≤ wait_random_exponential_draw 1 2 k u ∧
      wait_random_exponential_draw 1 2 k u ≤ wait_exponential_high 1 2 k ∧
      wait_exponential_high 1 2 k ≤ 2 ∧
      wait_exponential_high 1 2 k ≤ 2 ^ k) := by
  have hrun : retry_on_gcp_transient_call attempts =
      (Except.error (Exn.retryError (es 2)), 3) := by
    have h := tenacityRun_all_retryable attempts es hall hret 2 0
    simpa [retry_on_gcp_transient_call, stop_after_attempt_budget] using h
  refine ⟨hrun, ?_, ?_, ?_⟩
  · rw [hrun]
    simp [pollJobRecord, pollJobBody]
  · intro e he attempts2 h0
    have h := tenacityRun_nonretryable_first attempts2 e 2 0 h0 he
    simpa [retry_on_gcp_transient_call, stop_after_attempt_budget] using h
  · intro k u hu0 hu1
    have hhigh0 : 0 ≤ wait_exponential_high 1 2 k := le_max_left 0 _
    have hhigh2 : wait_exponential_high 1 2 k ≤ 2 := by
      unfold wait_exponential_high
      have h2 : (0 : ℚ) ≤ 2 := by norm_num
      have hmin : min ((1 : ℚ) * 2 ^ k) 2 ≤ 2 := min_le_right _ _
      exact max_le h2 hmin
    have hhighexp : wait_exponential_high 1 2 k ≤ 2 ^ k := by
      unfold wait_exponential_high
      have hp : (0 : ℚ) ≤ 2 ^ k := by positivity
      have hmin : min ((1 : ℚ) * 2 ^ k) 2 ≤ 2 ^ k := by
        calc min ((1 : ℚ) * 2 ^ k) 2 ≤ (1 : ℚ) * 2 ^ k := min_le_left _ _
        _ = 2 ^ k := one_mul _
      exact max_le hp hmin
    refine ⟨mul_nonneg hu0 hhigh0, ?_, hhigh2, hhighexp⟩
    unfold wait_random_exponential_draw
    calc u * wait_exponential_high 1 2 k ≤ 1 * wait_exponential_high 1 2 k := by
          exact mul_le_mul_of_nonneg_right hu1 hhigh0
    _ = wait_exponential_high 1 2 k := one_mul _

/-- Witness for C6 at the spec scenario j4: the remote raises
ServiceUnavailable on each of the 3 attempts, after which the record gets
no update call. -/
theorem c6_witness :
    retry_on_gcp_transient_call
        (fun _ => Except.error Exn.serviceUnavailable : Nat → Except Exn (Option BqJob)) =
      (Except.error (Exn.retryError Exn.serviceUnavailable), 3) ∧
    pollJobRecord (fun _ => Except.ok ())
        (Except.error (Exn.retryError Exn.serviceUnavailable))
        ⟨"j4", none, "RUNNING"⟩ = ⟨[], [], none⟩ := by
  have h := c6_transient_retry_budget_and_skip
    (fun _ => Except.error Exn.serviceUnavailable)
    (fun _ => Exn.serviceUnavailable)
    (fun _ => Except.ok ()) ⟨"j4", none, "RUNNING"⟩
    (fun _ => rfl) (fun _ => rfl)
  refine ⟨h.1, ?_⟩
  have h2 := h.2.1
  rw [h.1] at h2
  exact h2

/-- C7 counterexample: in the batch [a, b] the remote lookup for a raises
NotFound and the store write issued by the NotFound handler itself fails
(store unavailable); the exception raised inside the except block escapes
the per-record handling, so record b — which on its own would be updated
to RUNNING — receives no write in that cycle. -/
theorem c7_counterexample_handler_failure_aborts_batch :
    (pollJobRecord
        (fun w => if w.job_id == "a" then Except.error Exn.storeUnavailable
                  else Except.ok ())
        (Except.error Exn.notFound) ⟨"a", none, "PENDING"⟩).exn =
      some Exn.storeUnavailable ∧
    (run_bq_job_poller_cycle
        (fun w => if w.job_id == "a" then Except.error Exn.storeUnavailable
                  else Except.ok ())
        (fun j : BqJobInfo => if j.job_id == "a" then Except.error Exn.notFound
                  else Except.ok (some ⟨"RUNNING", none⟩))
        (Except.ok [⟨"a", none, "PENDING"⟩, ⟨"b", none, "PENDING"⟩])).writes.filter
      (fun w => w.job_id == "b") = [] ∧
    (run_bq_job_poller_cycle
        (fun w => if w.job_id == "a" then Except.error Exn.storeUnavailable
                  else Except.ok ())
        (fun j : BqJobInfo => if j.job_id == "a" then Except.error Exn.notFound
                  else Except.ok (some ⟨"RUNNING", none⟩))
        (Except.ok [⟨"b", none, "PENDING"⟩])).writes =
      [⟨"b", "RUNNING", none⟩] := by
  refine ⟨rfl, rfl, rfl⟩

/-- C7 (amended): when processing of the first record of a batch raises no
exception that escapes its per-record handling (remote-call failures and
exceptions inside the try body are caught there), the rest of the batch is
processed exactly as it would be on its own — its writes and calls are
unaffected; and no exception other than cooperative cancellation ever
escapes a poll cycle, so the loop never terminates on an error. An
exception raised by the store write inside the not-found handler, however,
does escape and aborts the remainder of that batch for that cycle. -/
theorem c7_amended_isolation_and_loop_survival (upd : UpdateBehavior)
    (getRes : GetJobBehavior) (j : BqJobInfo) (rest : List BqJobInfo)
    (h : (pollJobRecord upd (getRes j) j).exn = none) :
    (run_bq_job_poller_cycle upd getRes (Except.ok (j :: rest))).writes =
      (pollJobRecord upd (getRes j) j).writes ++
        (run_bq_job_poller_cycle upd getRes (Except.ok rest)).writes ∧
    (run_bq_job_poller_cycle upd getRes (Except.ok (j :: rest))).calls =
      (pollJobRecord upd (getRes j) j).calls ++
        (run_bq_job_poller_cycle upd getRes (Except.ok rest)).calls ∧
    ∀ batch : Except Exn (List BqJobInfo),
      (run_bq_job_poller_cycle upd getRes batch).exn = none ∨
      (run_bq_job_poller_cycle upd getRes batch).exn = some Exn.cancelled := by
  refine ⟨?_, ?_, ?_⟩
  · rw [cycle_ok_writes, cycle_ok_writes]
    simp only [pollJobList, h]
  · rw [cycle_ok_calls, cycle_ok_calls]
    simp only [pollJobList, h]
  · intro batch
    rcases batch with e | jobs
    · exact loopLevelCatch_none_or_cancelled (some e)
    · exact loopLevelCatch_none_or_cancelled (pollJobList upd getRes jobs).exn

/-- Witness for C7 (amended): record a fails with a permanent Forbidden
(caught and logged by the generic handler), record b is still updated. -/
theorem c7_amended_witness :
    (run_bq_job_poller_cycle (fun _ => Except.ok ())
        (fun j : BqJobInfo => if j.job_id == "a" then Except.error Exn.forbidden
                  else Except.ok (some ⟨"RUNNING", none⟩))
        (Except.ok [⟨"a", none, "PENDING"⟩, ⟨"b", none, "PENDING"⟩])).writes =
      (pollJobRecord (fun _ => Except.ok ())
        ((fun j : BqJobInfo => if j.job_id == "a" then Except.error Exn.forbidden
                  else Except.ok (some ⟨"RUNNING", none⟩)) ⟨"a", none, "PENDING"⟩)
        ⟨"a", none, "PENDING"⟩).writes ++
      (run_bq_job_poller_cycle (fun _ => Except.ok ())
        (fun j : BqJobInfo => if j.job_id == "a" then Except.error Exn.forbidden
                  else Except.ok (some ⟨"RUNNING", none⟩))
        (Except.ok [⟨"b", none, "PENDING"⟩])).writes :=
  (c7_amended_isolation_and_loop_survival (fun _ => Except.ok ())
    (fun j : BqJobInfo => if j.job_id == "a" then Except.error Exn.forbidden
              else Except.ok (some ⟨"RUNNING", none⟩))
    ⟨"a", none, "PENDING"⟩ [⟨"b", none, "PENDING"⟩] rfl).1

/-- C9: bq_submit_query never returns a success-status response: the name
BqJobInfo evaluated on the successful-submission path is not among the
names imported or defined in the module, so a NameError is raised before
add_job stores the record (the response is independent of the add_job
outcome) and the surrounding except turns it into an error response. -/
theorem c9_submit_query_never_success (arguments : List (String × PyVal))
    (conn_id : String) (submitRes : Except Exn QueryJobHandle)
    (addJobRes : Except Exn Unit) (r : McpResponse)
    (h : bq_submit_query arguments conn_id submitRes addJobRes = Except.ok r) :
    r.status ≠ "success" ∧
    ∀ a : Except Exn Unit,
      bq_submit_query arguments conn_id submitRes a =
        bq_submit_query arguments conn_id submitRes addJobRes := by
  have hc : bigquery_module_globals.contains "BqJobInfo" = false := by decide
  constructor
  · simp only [bq_submit_query, hc, Bool.false_eq_true, if_false] at h
    split at h
    · cases h
      decide
    · split at h
      · cases h
        decide
      · cases h
      · cases h
        decide
      · cases h
        decide
      · cases h
        simp [handle_gcp_error, format_error, format_response]
  · intro a
    simp only [bq_submit_query, hc, Bool.false_eq_true, if_false]

/-- Witness for C9 at a concrete valid query whose submission succeeds:
the returned response is the NameError-derived error response. -/
theorem c9_witness :
    (handle_gcp_error (Exn.nameError "BqJobInfo") "submitting BQ query").status ≠
      "success" ∧
    ∀ a : Except Exn Unit,
      bq_submit_query [("query", PyVal.str "SELECT 1")] "conn-1"
          (Except.ok ⟨"job-abc", "US", "PENDING"⟩) a =
        bq_submit_query [("query", PyVal.str "SELECT 1")] "conn-1"
          (Except.ok ⟨"job-abc", "US", "PENDING"⟩) (Except.ok ()) :=
  c9_submit_query_never_success [("query", PyVal.str "SELECT 1")] "conn-1"
    (Except.ok ⟨"job-abc", "US", "PENDING"⟩) (Except.ok ())
    (handle_gcp_error (Exn.nameError "BqJobInfo") "submitting BQ query") rfl

/-- Write events never count as fetch or sleep events. -/
theorem filter_write_events (ws : List JobWrite) :
    (ws.map PollerEvent.write).filter isFetchOrSleep = [] := by
  induction ws with
  | nil => rfl
  | cons w ws ih => simp [isFetchOrSleep, ih]

/-- The fetch and sleep events of one uncancelled iteration: exactly one
fetch followed by exactly one sleep of the configured interval. -/
theorem cycleTrace_filter (interval : Nat) (c : RecordOutcome)
    (h : c.exn = none) :
    (cycleTrace interval c).filter isFetchOrSleep =
      [PollerEvent.fetch, PollerEvent.sleep interval] := by
  unfold cycleTrace
  rw [h]
  simp [isFetchOrSleep, List.filter_append, filter_write_events]

/-- C10: as long as no iteration is cancelled, the fetch/sleep skeleton of
the poller trace is a strict alternation fetch, sleep(interval), fetch,
sleep(interval), ...: every iteration — whether it updated jobs, found no
pending jobs, or aborted in the batch-fetch step — ends with exactly one
full-interval sleep before the next batch fetch, and no two batch fetches
ever happen without a sleep between them. -/
theorem c10_sleep_between_fetches (interval : Nat) (envs : List CycleEnv)
    (h : ∀ env ∈ envs, (runCycleEnv env).exn = none) :
    (run_bq_job_poller_trace interval envs).filter isFetchOrSleep =
      envs.flatMap (fun _ => [PollerEvent.fetch, PollerEvent.sleep interval]) := by
  induction envs with
  | nil => rfl
  | cons env rest ih =>
    have henv : (runCycleEnv env).exn = none := h env (List.mem_cons_self env rest)
    have hrest : ∀ e ∈ rest, (runCycleEnv e).exn = none := by
      intro e he
      exact h e (List.mem_cons_of_mem env he)
    simp only [run_bq_job_poller_trace, henv]
    rw [List.filter_append, cycleTrace_filter interval (runCycleEnv env) henv,
      ih hrest]
    rfl

/-- Witness for C10 on three concrete iterations: one whose batch fetch
fails with a store error, one with an empty batch, and one that updates a
job; the fetch/sleep skeleton still alternates with one sleep per fetch. -/
theorem c10_witness :
    (run_bq_job_poller_trace 60
        [⟨Except.error Exn.storeUnavailable,
          fun _ => Except.ok (some ⟨"RUNNING", none⟩), fun _ => Except.ok ()⟩,
         ⟨Except.ok [],
          fun _ => Except.ok (some ⟨"RUNNING", none⟩), fun _ => Except.ok ()⟩,
         ⟨Except.ok [⟨"j1", none, "PENDING"⟩],
          fun _ => Except.ok (some ⟨"RUNNING", none⟩),
          fun _ => Except.ok ()⟩]).filter isFetchOrSleep =
      List.flatMap
        [⟨Except.error Exn.storeUnavailable,
          fun _ => Except.ok (some ⟨"RUNNING", none⟩), fun _ => Except.ok ()⟩,
         ⟨Except.ok [],
          fun _ => Except.ok (some ⟨"RUNNING", none⟩), fun _ => Except.ok ()⟩,
         (⟨Except.ok [⟨"j1", none, "PENDING"⟩],
          fun _ => Except.ok (some ⟨"RUNNING", none⟩),
          fun _ => Except.ok ()⟩ : CycleEnv)]
        (fun _ => [PollerEvent.fetch, PollerEvent.sleep 60]) :=
  c10_sleep_between_fetches 60
    [⟨Except.error Exn.storeUnavailable,
      fun _ => Except.ok (some ⟨"RUNNING", none⟩), fun _ => Except.ok ()⟩,
     ⟨Except.ok [],
      fun _ => Except.ok (some ⟨"RUNNING", none⟩), fun _ => Except.ok ()⟩,
     ⟨Except.ok [⟨"j1", none, "PENDING"⟩],
      fun _ => Except.ok (some ⟨"RUNNING", none⟩), fun _ => Except.ok ()⟩]
    (by
      intro env henv
      cases henv with
      | head => rfl
      | tail _ h1 =>
        cases h1 with
        | head => rfl
        | tail _ h2 =>
          cases h2 with
          | head => rfl
          | tail _ h3 => cases h3)

end McpAgent
